import Mathlib

/-!
Verification of the question-generator script (`question-generator.py`).

The script clamps its count inputs, builds a chat prompt, calls an external
LLM completion endpoint, cleans Markdown code fences off the returned text,
parses it as JSON, stamps each parsed record with the category, and uploads
the records to an HTTP endpoint with a defensive four-key reshape.

The embedding below models:
  * Python strings as `List Char`; `str.strip` / `str.strip(chars)` as
    character-set trims from both ends;
  * JSON values as the inductive `Json` (numbers and string contents are
    kept at lexeme level, which is faithful for every equality considered
    here because both sides of each comparison parse the same lexemes);
  * `json.loads` as a fuel-bounded recursive-descent parser `Json.parse`;
  * the LLM endpoint as an oracle `ChatRequest → CompletionOutcome`;
  * the HTTP layer as an oracle `Json → HttpOutcome`, with the list of
    issued request bodies returned as an explicit trace;
  * Python exceptions that escape a function as `Except PyErr`.
-/

/-- Python whitespace characters recognised by `str.strip()` (ASCII range). -/
def isPyWs (c : Char) : Bool :=
  c = ' ' || c = '\t' || c = '\n' || c = '\r' || c = '\x0b' || c = '\x0c'

/-- Left trim: drop leading characters satisfying `p` (Python `lstrip`). -/
def lstrip (p : Char → Bool) (l : List Char) : List Char :=
  l.dropWhile p

/-- Right trim: drop trailing characters satisfying `p` (Python `rstrip`). -/
def rstrip (p : Char → Bool) (l : List Char) : List Char :=
  (lstrip p l.reverse).reverse

/-- Python `s.strip(chars)` / `s.strip()`: trim from both ends. -/
def strip (p : Char → Bool) (l : List Char) : List Char :=
  rstrip p (lstrip p l)

/-- `str.strip()` with no argument: trim whitespace. -/
def pyStrip (l : List Char) : List Char := strip isPyWs l

/-- `str.strip(chars)`: `chars` acts as a character set. -/
def pyStripSet (chars : List Char) (l : List Char) : List Char :=
  strip (fun c => chars.contains c) l

/-- The cleaning step of `generate_questions` (source line 76):
`content.strip().strip("\x60\x60\x60json").strip("\x60\x60\x60").strip()`. -/
def pyClean (content : List Char) : List Char :=
  pyStrip (pyStripSet ['\x60', '\x60', '\x60']
    (pyStripSet ['\x60', '\x60', '\x60', 'j', 's', 'o', 'n'] (pyStrip content)))

/-- The Markdown JSON fence wrapper from the spec's round-trip property:
`"\x60\x60\x60json\n" + t + "\n\x60\x60\x60"`. -/
def jsonFence (t : List Char) : List Char :=
  '\x60' :: '\x60' :: '\x60' :: 'j' :: 's' :: 'o' :: 'n' :: '\n' ::
    (t ++ ['\n', '\x60', '\x60', '\x60'])

/-- JSON values as produced by `json.loads`.  Number and string contents are
kept at lexeme level (the raw character runs), which is injective on the
comparisons made in this development.  Objects model Python dicts:
insertion-ordered association lists with unique keys. -/
inductive Json where
  | null : Json
  | bool : Bool → Json
  | num : List Char → Json
  | str : List Char → Json
  | arr : List Json → Json
  | obj : List (List Char × Json) → Json

/-- Dict read `d[key]`: first (unique) matching key. -/
def lookupKV : List (List Char × Json) → List Char → Option Json
  | [], _ => none
  | (k, v) :: rest, key => if k = key then some v else lookupKV rest key

/-- Dict write `d[key] = v`: replace in place if the key exists (keeping its
position, as Python dicts do), else append. -/
def setKey : List (List Char × Json) → List Char → Json → List (List Char × Json)
  | [], key, v => [(key, v)]
  | (k, w) :: rest, key, v =>
      if k = key then (k, v) :: rest else (k, w) :: setKey rest key v

/-- JSON whitespace accepted around tokens by `json.loads`. -/
def isJsonWs (c : Char) : Bool :=
  c = ' ' || c = '\t' || c = '\n' || c = '\r'

/-- Skip JSON whitespace. -/
def skipWs (l : List Char) : List Char := l.dropWhile isJsonWs

/-- Characters that may continue a number lexeme. -/
def isNumChar (c : Char) : Bool :=
  c.isDigit || c = '-' || c = '+' || c = '.' || c = 'e' || c = 'E'

/-- Scan a JSON string body after the opening quote; returns the raw
(escape-preserving) content and the input after the closing quote. -/
def parseStringBody : List Char → Option (List Char × List Char)
  | [] => none
  | '"' :: r => some ([], r)
  | '\\' :: e :: r =>
      (parseStringBody r).map (fun p => ('\\' :: e :: p.1, p.2))
  | c :: r => (parseStringBody r).map (fun p => (c :: p.1, p.2))

mutual

/-- Parse one JSON value (leading whitespace already skipped). -/
def parseValue : Nat → List Char → Option (Json × List Char)
  | 0, _ => none
  | _ + 1, [] => none
  | f + 1, c :: l =>
    if c = 'n' then
      match l with
      | 'u' :: 'l' :: 'l' :: r => some (Json.null, r)
      | _ => none
    else if c = 't' then
      match l with
      | 'r' :: 'u' :: 'e' :: r => some (Json.bool true, r)
      | _ => none
    else if c = 'f' then
      match l with
      | 'a' :: 'l' :: 's' :: 'e' :: r => some (Json.bool false, r)
      | _ => none
    else if c = '"' then
      (parseStringBody l).map (fun p => (Json.str p.1, p.2))
    else if c = '[' then
      match parseElems f (skipWs l) with
      | some (vs, r) => some (Json.arr vs, r)
      | none => none
    else if c = '\x7b' then
      match parseMembers f (skipWs l) with
      | some (kvs, r) =>
          some (Json.obj (kvs.foldl (fun d kv => setKey d kv.1 kv.2) []), r)
      | none => none
    else if c.isDigit || c = '-' then
      some (Json.num ((c :: l).takeWhile isNumChar), (c :: l).dropWhile isNumChar)
    else none

/-- After `[`: parse the first element or an immediate `]`. -/
def parseElems : Nat → List Char → Option (List Json × List Char)
  | 0, _ => none
  | f + 1, ']' :: r => some ([], r)
  | f + 1, l =>
    match parseValue f l with
    | some (v, r1) =>
      match parseElemsRest f (skipWs r1) with
      | some (vs, r2) => some (v :: vs, r2)
      | none => none
    | none => none

/-- After an element: expect `,` followed by a value, or the closing `]`. -/
def parseElemsRest : Nat → List Char → Option (List Json × List Char)
  | 0, _ => none
  | f + 1, ']' :: r => some ([], r)
  | f + 1, ',' :: r =>
    match parseValue f (skipWs r) with
    | some (v, r1) =>
      match parseElemsRest f (skipWs r1) with
      | some (vs, r2) => some (v :: vs, r2)
      | none => none
    | none => none
  | _ + 1, _ => none

/-- After `\x7b`: parse the first member or an immediate `\x7d`. -/
def parseMembers : Nat → List Char → Option (List (List Char × Json) × List Char)
  | 0, _ => none
  | f + 1, '\x7d' :: r => some ([], r)
  | f + 1, '"' :: l =>
    match parseStringBody l with
    | some (k, r1) =>
      match skipWs r1 with
      | ':' :: r2 =>
        match parseValue f (skipWs r2) with
        | some (v, r3) =>
          match parseMembersRest f (skipWs r3) with
          | some (kvs, r4) => some ((k, v) :: kvs, r4)
          | none => none
        | none => none
      | _ => none
    | none => none
  | _ + 1, _ => none

/-- After a member: expect `,` followed by a member, or the closing `\x7d`. -/
def parseMembersRest : Nat → List Char → Option (List (List Char × Json) × List Char)
  | 0, _ => none
  | f + 1, '\x7d' :: r => some ([], r)
  | f + 1, ',' :: r =>
    match skipWs r with
    | '"' :: l =>
      match parseStringBody l with
      | some (k, r1) =>
        match skipWs r1 with
        | ':' :: r2 =>
          match parseValue f (skipWs r2) with
          | some (v, r3) =>
            match parseMembersRest f (skipWs r3) with
            | some (kvs, r4) => some ((k, v) :: kvs, r4)
            | none => none
          | none => none
        | _ => none
      | none => none
    | _ => none
  | _ + 1, _ => none

end

/-- Model of `json.loads`: skip surrounding whitespace, parse exactly one
value spanning the rest of the input.  `none` models `json.JSONDecodeError`. -/
def Json.parse (l : List Char) : Option Json :=
  let u := skipWs l
  match parseValue (u.length + 1) u with
  | some (v, r) => if skipWs r = [] then some v else none
  | none => none

/-- `true` for `Json.arr`: whether the Python value is a list. -/
def Json.isArr : Json → Bool
  | .arr _ => true
  | _ => false

/-- A chat-completion request as assembled at source lines 64-72. -/
structure ChatRequest where
  model : List Char
  system : List Char
  user : List Char
  temperature : ℚ
  maxTokens : Nat

/-- Outcome of one call to the completion capability:
`content s` — the call returned and `message.content` was the text `s`;
`noContent` — the call returned but `message.content` was `None`
(so `content.strip()` raises `AttributeError`);
`raises` — the API call itself (or the `choices[0]` access) raised. -/
inductive CompletionOutcome where
  | content : List Char → CompletionOutcome
  | noContent : CompletionOutcome
  | raises : CompletionOutcome

/-- The prompt f-string of source lines 39-61, with the two counts and the
category interpolated. -/
def buildPrompt (category : List Char) (nq nf : Int) : List Char :=
  "Generate ".data ++ (toString nq).data ++ " questions about ".data ++ category ++
  ".\nFor each question, provide:\n1. A clear, concise question text\n2. A single correct answer (factually accurate)\n3. ".data ++
  (toString nf).data ++
  " incorrect but plausible filler answers\n\nImportant guidelines:\n- Questions should be factually accurate and verifiable\n- Avoid opinion-based questions\n- Ensure answers are not too similar to each other\n- Keep questions and answers concise\n- Format filler_answers as a JSON array of strings\n\nFormat the response as a JSON array of objects with this exact structure:\n[\n  \x7b\n    \"text\": \"What is the capital of France?\",\n    \"answer\": \"Paris\",\n    \"filler_answers\": [\"London\", \"Berlin\", \"Madrid\"]\n  \x7d\n]\n\nONLY return the JSON array, no other text or markdown formatting.".data

/-- The full request of source lines 64-72: fixed model, fixed system
instruction, the built prompt, temperature 0.7, max_tokens 2000. -/
def mkChatRequest (category : List Char) (nq nf : Int) : ChatRequest :=
  { model := "gpt-4-turbo".data
    system := "You are a helpful assistant that creates high-quality, factually accurate quiz questions.".data
    user := buildPrompt category nq nf
    temperature := 7 / 10
    maxTokens := 2000 }

/-- The loop `for q in questions: q["category"] = category` (source lines
80-81) on the elements of a parsed JSON list.  `none` models the `TypeError`
raised when an element is not a dict. -/
def annotateList (category : List Char) : List Json → Option (List Json)
  | [] => some []
  | Json.obj kvs :: rest =>
      (annotateList category rest).map
        (fun qs => Json.obj (setKey kvs "category".data (Json.str category)) :: qs)
  | _ :: _ => none

/-- The same loop on an arbitrary parsed value `questions`.  Iterating a
non-empty dict yields its keys (strings) and a non-empty string yields its
characters; in both cases the first item assignment raises `TypeError`
(`none`).  The empty dict and empty string iterate zero times, so the
original (non-list!) value is returned unchanged.  Non-iterable values
raise `TypeError` at the `for` itself. -/
def annotateVal (category : List Char) : Json → Option Json
  | Json.arr xs => (annotateList category xs).map Json.arr
  | Json.obj [] => some (Json.obj [])
  | Json.obj (_ :: _) => none
  | Json.str [] => some (Json.str [])
  | Json.str (_ :: _) => none
  | _ => none

/-- `QuestionGenerator.generate_questions` (source lines 18-91), with the
completion capability abstracted as the oracle `o`.  Every failure path
(API exception, `None` content, JSON decode error, `TypeError` while
stamping) is caught by the two `except` arms and yields `[]`.  The returned
value is the Python object the function returns, which is the annotated
parse result on success — a list except in the two empty-iterable corner
cases noted at `annotateVal`. -/
def generate_questions (o : ChatRequest → CompletionOutcome)
    (category : List Char) (num_questions num_fillers : Int) : Json :=
  let num_questions := max 1 (min 10 num_questions)
  let num_fillers := max 3 (min 5 num_fillers)
  match o (mkChatRequest category num_questions num_fillers) with
  | .raises => Json.arr []
  | .noContent => Json.arr []
  | .content content =>
    match Json.parse (pyClean content) with
    | none => Json.arr []
    | some questions =>
      match annotateVal category questions with
      | none => Json.arr []
      | some questions => questions

/-- Python exceptions that escape `upload_questions` (they are raised by the
reshape loop of source lines 108-115, which sits outside the `try`). -/
inductive PyErr where
  | keyError : PyErr
  | typeError : PyErr

/-- Outcome of the `requests.post` call: a final HTTP response with status
and body, or a transport-level failure / timeout
(`requests.exceptions.ConnectionError` / `Timeout`). -/
inductive HttpOutcome where
  | resp : Nat → List Char → HttpOutcome
  | transportError : HttpOutcome

/-- Python truthiness of the values relevant here (`if not questions`).
Zero-valued numeric truthiness is not modelled: no caller in this program
passes a bare number to a truthiness test. -/
def pyFalsy : Json → Bool
  | Json.arr xs => xs.isEmpty
  | Json.obj kvs => kvs.isEmpty
  | Json.str s => s.isEmpty
  | Json.null => true
  | Json.bool b => !b
  | Json.num _ => false

/-- Python iteration `for q in questions`: lists yield elements, dicts yield
their keys, strings yield their 1-character substrings; other values raise
`TypeError` (`none`). -/
def pyIter : Json → Option (List Json)
  | Json.arr xs => some xs
  | Json.obj kvs => some (kvs.map (fun kv => Json.str kv.1))
  | Json.str s => some (s.map (fun c => Json.str [c]))
  | _ => none

/-- The reshape of one record (source lines 110-115): build a fresh dict
holding exactly the four keys, each read from the input record.  A missing
key raises `KeyError`; indexing a non-dict raises `TypeError`. -/
def reshape : Json → Except PyErr Json
  | Json.obj kvs =>
    match lookupKV kvs "text".data, lookupKV kvs "answer".data,
        lookupKV kvs "category".data, lookupKV kvs "filler_answers".data with
    | some t, some a, some c, some fa =>
        Except.ok (Json.obj
          [("text".data, t), ("answer".data, a),
           ("category".data, c), ("filler_answers".data, fa)])
    | _, _, _, _ => Except.error PyErr.keyError
  | _ => Except.error PyErr.typeError

/-- The reshape loop over all records, stopping at the first failing record
exactly as the Python `for` loop does. -/
def reshapeAll : List Json → Except PyErr (List Json)
  | [] => Except.ok []
  | q :: rest =>
    match reshape q with
    | Except.ok d =>
      match reshapeAll rest with
      | Except.ok ds => Except.ok (d :: ds)
      | Except.error e => Except.error e
    | Except.error e => Except.error e

/-- `QuestionGenerator.upload_questions` (source lines 93-139) with the HTTP
layer abstracted as the oracle `net`.  The second component is the trace of
request bodies handed to `requests.post` (so `[]` means no network call).
`response.raise_for_status()` raises `HTTPError` — a
`requests.exceptions.RequestException`, hence caught, logged and turned
into `False` — exactly when `400 ≤ status < 600`. -/
def upload_questions (net : Json → HttpOutcome) (questions : Json) :
    Except PyErr Bool × List Json :=
  if pyFalsy questions then (Except.ok false, [])
  else
    match pyIter questions with
    | none => (Except.error PyErr.typeError, [])
    | some items =>
      match reshapeAll items with
      | Except.error e => (Except.error e, [])
      | Except.ok formatted =>
        let payload := Json.obj [("questions".data, Json.arr formatted)]
        match net payload with
        | HttpOutcome.resp status _body =>
            (Except.ok (if 400 ≤ status ∧ status < 600 then false else true), [payload])
        | HttpOutcome.transportError => (Except.ok false, [payload])

/-- The driver loop of `main` (source lines 151-173): for each category,
generate with `num_questions = 5, num_fillers = 3`; on a falsy generation
result continue to the next category; otherwise upload.  `main` has no
`try`/`except`, so an exception escaping `upload_questions` propagates and
aborts the whole loop (`Except.error`); the returned list records, per
completed category, whether its upload succeeded. -/
def processCategories (o : ChatRequest → CompletionOutcome)
    (net : Json → HttpOutcome) : List (List Char) → Except PyErr (List (List Char × Bool))
  | [] => Except.ok []
  | c :: rest =>
    let questions := generate_questions o c 5 3
    if pyFalsy questions then
      match processCategories o net rest with
      | Except.ok results => Except.ok ((c, false) :: results)
      | Except.error e => Except.error e
    else
      match (upload_questions net questions).1 with
      | Except.error e => Except.error e
      | Except.ok ok =>
        match processCategories o net rest with
        | Except.ok results => Except.ok ((c, ok) :: results)
        | Except.error e => Except.error e

/-- A Python dict object on the heap (keys to JSON-modelled values). -/
abbrev PyDict := List (List Char × Json)

/-- Heap model for the frame property: an arena of dict objects, where a
reference is an index and allocation appends at the end. -/
abbrev Store := List PyDict

/-- Heap-level reshape of one record reference (source lines 110-114): four
reads `q["text"]`, `q["answer"]`, `q["category"]`, `q["filler_answers"]`
from the referenced dict; no write to it. -/
def reshapeRef (store : Store) (r : Nat) : Except PyErr PyDict :=
  match store[r]? with
  | none => Except.error PyErr.typeError
  | some d =>
    match lookupKV d "text".data, lookupKV d "answer".data,
        lookupKV d "category".data, lookupKV d "filler_answers".data with
    | some t, some a, some c, some fa =>
        Except.ok [("text".data, t), ("answer".data, a),
                   ("category".data, c), ("filler_answers".data, fa)]
    | _, _, _, _ => Except.error PyErr.keyError

/-- Heap-level reshape loop (source lines 108-115): each iteration reads the
input record and allocates one fresh dict (`formatted_questions.append`
of a dict literal); on a lookup failure the loop stops with the partial
allocations already made.  Returns the references of the fresh dicts and
the grown store. -/
def formatLoop (store : Store) : List Nat → Except PyErr (List Nat) × Store
  | [] => (Except.ok [], store)
  | r :: rs =>
    match reshapeRef store r with
    | Except.error e => (Except.error e, store)
    | Except.ok d =>
      match formatLoop (store ++ [d]) rs with
      | (Except.ok refs, store1) => (Except.ok (store.length :: refs), store1)
      | (Except.error e, store1) => (Except.error e, store1)

/-- Heap-level `upload_questions` on a list of record references: the same
control flow as `upload_questions`, with the store threaded through so that
mutation (or its absence) is observable.  The only store effects are the
allocations of the fresh reshaped dicts. -/
def uploadHeap (net : Json → HttpOutcome) (store : Store) (qrefs : List Nat) :
    Except PyErr Bool × Store :=
  if qrefs.isEmpty then (Except.ok false, store)
  else
    match formatLoop store qrefs with
    | (Except.error e, store1) => (Except.error e, store1)
    | (Except.ok refs, store1) =>
      let payload := Json.obj [("questions".data,
        Json.arr (refs.filterMap (fun r => (store1[r]?).map Json.obj)))]
      match net payload with
      | HttpOutcome.resp status _body =>
          (Except.ok (if 400 ≤ status ∧ status < 600 then false else true), store1)
      | HttpOutcome.transportError => (Except.ok false, store1)

/-- The spec's example record, as a dict:
`\x7b"text":"Q","answer":"A","category":"C","filler_answers":["B","D","E"]\x7d`. -/
def sampleDict : PyDict :=
  [("text".data, Json.str "Q".data), ("answer".data, Json.str "A".data),
   ("category".data, Json.str "C".data),
   ("filler_answers".data,
     Json.arr [Json.str "B".data, Json.str "D".data, Json.str "E".data])]

/-- The spec's example record as a JSON value. -/
def sampleRecord : Json := Json.obj sampleDict

/-- The spec's example input: a one-record list. -/
def sampleList : Json := Json.arr [sampleRecord]

/-- A one-record heap for the frame property. -/
def sampleStore : Store := [sampleDict]

/-- A JSON array text used to instantiate the fence round-trip. -/
def sampleArrayText : List Char :=
  "[\x7b\"text\": \"Q\", \"answer\": \"A\", \"filler_answers\": [\"B\"]\x7d]".data

/-- A completion oracle that always answers with a one-object JSON array
whose object carries only the key `text` (so the annotated record lacks
`answer` and `filler_answers`). -/
def oracleTextOnly : ChatRequest → CompletionOutcome :=
  fun _ => CompletionOutcome.content "[\x7b\"text\": \"t\"\x7d]".data

/-- An HTTP layer that always answers 200 with an empty body. -/
def netOk : Json → HttpOutcome := fun _ => HttpOutcome.resp 200 []

/-! ## Helper lemmas -/

theorem lstrip_cons_pos {p : Char → Bool} {c : Char} (l : List Char) (h : p c = true) :
    lstrip p (c :: l) = lstrip p l := by
  simp [lstrip, List.dropWhile_cons, h]

theorem lstrip_cons_neg {p : Char → Bool} {c : Char} (l : List Char) (h : p c = false) :
    lstrip p (c :: l) = c :: l := by
  simp [lstrip, List.dropWhile_cons, h]

theorem rstrip_concat_pos {p : Char → Bool} {c : Char} (l : List Char) (h : p c = true) :
    rstrip p (l ++ [c]) = rstrip p l := by
  simp [rstrip, List.reverse_append, lstrip_cons_pos _ h]

theorem rstrip_concat_neg {p : Char → Bool} {c : Char} (l : List Char) (h : p c = false) :
    rstrip p (l ++ [c]) = l ++ [c] := by
  simp [rstrip, List.reverse_append, lstrip_cons_neg _ h]

/-! ## Claims -/

/-- C1: for every integer inputs `n` and `m`, `generate_questions` with
`num_questions = n` and `num_fillers = m` behaves exactly as with
`num_questions = max 1 (min 10 n)` and `num_fillers = max 3 (min 5 m)`:
out-of-range counts are coerced into the supported band, never rejected. -/
theorem generate_questions_clamps (o : ChatRequest → CompletionOutcome)
    (category : List Char) (n m : Int) :
    generate_questions o category n m =
      generate_questions o category (max 1 (min 10 n)) (max 3 (min 5 m)) := by
  have h1 : max 1 (min 10 (max 1 (min 10 n))) = max 1 (min 10 n) := by omega
  have h2 : max 3 (min 5 (max 3 (min 5 m))) = max 3 (min 5 m) := by omega
  simp only [generate_questions, h1, h2]

theorem strip_nonws_ends {p : Char → Bool} {a b : Char} (l : List Char)
    (ha : p a = false) (hb : p b = false) :
    strip p (a :: (l ++ [b])) = a :: (l ++ [b]) := by
  rw [strip, lstrip_cons_neg _ ha,
    show a :: (l ++ [b]) = (a :: l) ++ [b] by simp,
    rstrip_concat_neg _ hb]

theorem clean_fence (t : List Char) (h1 : t.head? = some '[') (h2 : t.getLast? = some ']') :
    pyClean (jsonFence t) = t := by
  cases t with
  | nil => simp at h1
  | cons a t1 =>
    simp only [List.head?_cons, Option.some.injEq] at h1
    subst h1
    rcases List.eq_nil_or_concat ('[' :: t1) with h | ⟨t2, c, ht⟩
    · simp at h
    · rw [List.concat_eq_append] at ht
      have hc : c = ']' := by
        have := h2
        rw [ht, List.getLast?_concat] at this
        simpa using this
      subst hc
      -- step A: outer whitespace strip is a no-op
      have hA : pyStrip (jsonFence ('[' :: t1)) = jsonFence ('[' :: t1) := by
        rw [show jsonFence ('[' :: t1) =
          '\x60' :: (('\x60' :: '\x60' :: 'j' :: 's' :: 'o' :: 'n' :: '\n' ::
            (('[' :: t1) ++ ['\n', '\x60', '\x60'])) ++ ['\x60']) by simp [jsonFence]]
        exact strip_nonws_ends _ (by decide) (by decide)
      -- step B: strip("```json") removes the fence up to the newlines
      have hB : pyStripSet ['\x60', '\x60', '\x60', 'j', 's', 'o', 'n']
          (jsonFence ('[' :: t1)) = '\n' :: (('[' :: t1) ++ ['\n']) := by
        rw [pyStripSet, jsonFence, strip,
          lstrip_cons_pos _ (by decide), lstrip_cons_pos _ (by decide),
          lstrip_cons_pos _ (by decide), lstrip_cons_pos _ (by decide),
          lstrip_cons_pos _ (by decide), lstrip_cons_pos _ (by decide),
          lstrip_cons_pos _ (by decide), lstrip_cons_neg _ (by decide),
          show '\n' :: (('[' :: t1) ++ ['\n', '\x60', '\x60', '\x60']) =
            (('\n' :: (('[' :: t1) ++ ['\n', '\x60', '\x60'])) ++ ['\x60']) by simp,
          rstrip_concat_pos _ (by decide),
          show '\n' :: (('[' :: t1) ++ ['\n', '\x60', '\x60']) =
            (('\n' :: (('[' :: t1) ++ ['\n', '\x60'])) ++ ['\x60']) by simp,
          rstrip_concat_pos _ (by decide),
          show '\n' :: (('[' :: t1) ++ ['\n', '\x60']) =
            (('\n' :: (('[' :: t1) ++ ['\n'])) ++ ['\x60']) by simp,
          rstrip_concat_pos _ (by decide),
          show '\n' :: (('[' :: t1) ++ ['\n']) =
            (('\n' :: ('[' :: t1)) ++ ['\n']) by simp,
          rstrip_concat_neg _ (by decide)]
      -- step C: strip("```") is a no-op (both ends are newlines)
      have hC : pyStripSet ['\x60', '\x60', '\x60'] ('\n' :: (('[' :: t1) ++ ['\n'])) =
          '\n' :: (('[' :: t1) ++ ['\n']) := by
        exact strip_nonws_ends _ (by decide) (by decide)
      -- step D: the final whitespace strip removes exactly the two newlines
      have hD : pyStrip ('\n' :: (('[' :: t1) ++ ['\n'])) = '[' :: t1 := by
        rw [pyStrip, strip, lstrip_cons_pos _ (by decide),
          show ('[' :: t1) ++ ['\n'] = '[' :: (t1 ++ ['\n']) by simp,
          lstrip_cons_neg _ (by decide),
          show '[' :: (t1 ++ ['\n']) = ('[' :: t1) ++ ['\n'] by simp,
          rstrip_concat_pos _ (by decide), ht,
          rstrip_concat_neg _ (by decide)]
      rw [pyClean, hA, hB, hC, hD]

/-- C2: cleaning the Markdown-fenced form `"\x60\x60\x60json\n" + t + "\n\x60\x60\x60"`
of a JSON array text `t` (a text of a JSON array: it starts with `[` and
ends with `]`) and then parsing gives the same parsed result as parsing `t`
without the fence. -/
theorem fence_strip_roundtrip (t : List Char)
    (h1 : t.head? = some '[') (h2 : t.getLast? = some ']') :
    Json.parse (pyClean (jsonFence t)) = Json.parse t := by
  rw [clean_fence t h1 h2]

/-- Witness for C2 at the concrete array text `sampleArrayText`. -/
theorem fence_strip_roundtrip_witness :
    sampleArrayText.head? = some '[' ∧ sampleArrayText.getLast? = some ']' ∧
    Json.parse (pyClean (jsonFence sampleArrayText)) = Json.parse sampleArrayText :=
  ⟨by decide, by decide, fence_strip_roundtrip sampleArrayText (by decide) (by decide)⟩

/-- C3 counterexample: with a well-formed one-record input and a mocked
response of status 301 (not 2xx), `upload_questions` returns `True`: the
claim "for every non-2xx response status it returns false" is wrong, since
`raise_for_status` only raises for statuses in `[400, 600)`. -/
theorem upload_301_returns_true :
    (upload_questions (fun _ => HttpOutcome.resp 301 []) sampleList).1 = Except.ok true ∧
    ¬(200 ≤ 301 ∧ 301 < 300) := ⟨by rfl, by omega⟩

/-- C3 (amended): on a non-falsy input whose reshape succeeds,
`upload_questions` returns true exactly when the final response status is
outside `[400, 600)` (the statuses for which `raise_for_status` raises);
every 4xx/5xx status yields false, and a transport-level failure (connection
error, timeout) also yields false. -/
theorem upload_status_mapping (q : Json) (items fs : List Json) (s : Nat) (b : List Char)
    (hf : pyFalsy q = false) (hi : pyIter q = some items)
    (hr : reshapeAll items = Except.ok fs) :
    (upload_questions (fun _ => HttpOutcome.resp s b) q).1 =
      Except.ok (if 400 ≤ s ∧ s < 600 then false else true) ∧
    (upload_questions (fun _ => HttpOutcome.transportError) q).1 = Except.ok false := by
  constructor <;> simp only [upload_questions, hf, hi, hr, Bool.false_eq_true, if_false]

/-- Witness for C3's amended theorem: status 201 gives true, 500 gives
false, transport failure gives false, at the spec's example record. -/
theorem upload_status_mapping_witness :
    pyFalsy sampleList = false ∧
    (upload_questions (fun _ => HttpOutcome.resp 201 []) sampleList).1 = Except.ok true ∧
    (upload_questions (fun _ => HttpOutcome.resp 500 []) sampleList).1 = Except.ok false ∧
    (upload_questions (fun _ => HttpOutcome.transportError) sampleList).1 = Except.ok false := by
  have h201 := upload_status_mapping sampleList [sampleRecord] [sampleRecord] 201 [] rfl rfl rfl
  have h500 := upload_status_mapping sampleList [sampleRecord] [sampleRecord] 500 [] rfl rfl rfl
  refine ⟨rfl, ?_, ?_, h500.2⟩
  · rw [h201.1, if_neg (by omega)]
  · rw [h500.1, if_pos (by omega)]

/-- C4 counterexample: when every completion answer is a one-object array
whose object has only `text` (so the annotated record lacks `answer`), the
`KeyError` from the reshape propagates out of `upload_questions` and out of
the driver loop — `main` has no `try`/`except` — so the run aborts during
the FIRST category and "History" is never processed, contradicting the
claimed per-category isolation. -/
theorem driver_abort_counterexample :
    processCategories oracleTextOnly netOk ["Science".data, "History".data] =
      Except.error PyErr.keyError := by rfl

/-- C4 (amended): a required-key lookup failure propagates out of
`upload_questions` and aborts the whole driver run: the driver returns the
error itself and the remaining categories are never processed. -/
theorem driver_aborts_on_upload_error (o : ChatRequest → CompletionOutcome)
    (net : Json → HttpOutcome) (c : List Char) (rest : List (List Char)) (e : PyErr)
    (h1 : pyFalsy (generate_questions o c 5 3) = false)
    (h2 : (upload_questions net (generate_questions o c 5 3)).1 = Except.error e) :
    processCategories o net (c :: rest) = Except.error e := by
  simp only [processCategories, h1, h2, Bool.false_eq_true, if_false]

/-- Witness for C4's amended theorem at the concrete aborting run. -/
theorem driver_aborts_witness :
    pyFalsy (generate_questions oracleTextOnly "Science".data 5 3) = false ∧
    (upload_questions netOk (generate_questions oracleTextOnly "Science".data 5 3)).1 =
      Except.error PyErr.keyError ∧
    processCategories oracleTextOnly netOk ["Science".data, "History".data] =
      Except.error PyErr.keyError :=
  ⟨rfl, rfl,
    driver_aborts_on_upload_error oracleTextOnly netOk "Science".data ["History".data]
      PyErr.keyError rfl rfl⟩

/-- C5: if the completion capability returns text that does not parse as
JSON after cleaning, `generate_questions` returns the empty list and does
not raise; likewise any exception raised while invoking or processing the
completion capability (API error, `None` content) yields the empty list. -/
theorem generate_fail_to_empty (cat : List Char) (n m : Int) (s : List Char)
    (h : Json.parse (pyClean s) = none) :
    generate_questions (fun _ => CompletionOutcome.content s) cat n m = Json.arr [] ∧
    generate_questions (fun _ => CompletionOutcome.raises) cat n m = Json.arr [] ∧
    generate_questions (fun _ => CompletionOutcome.noContent) cat n m = Json.arr [] := by
  refine ⟨?_, rfl, rfl⟩
  simp only [generate_questions, h]

/-- Witness for C5 at a non-JSON completion answer. -/
theorem generate_fail_to_empty_witness :
    Json.parse (pyClean "sorry, I cannot help with that".data) = none ∧
    generate_questions (fun _ => CompletionOutcome.content "sorry, I cannot help with that".data)
      "Science".data 5 3 = Json.arr [] :=
  ⟨rfl, (generate_fail_to_empty "Science".data 5 3 "sorry, I cannot help with that".data rfl).1⟩

/-- C6: uploading an empty list returns false and issues no network call
(the trace of request bodies is empty). -/
theorem upload_empty_short_circuit (net : Json → HttpOutcome) :
    upload_questions net (Json.arr []) = (Except.ok false, []) := rfl

theorem lookupKV_setKey (kvs : List (List Char × Json)) (k : List Char) (v : Json) :
    lookupKV (setKey kvs k v) k = some v := by
  induction kvs with
  | nil => simp [setKey, lookupKV]
  | cons kv rest ih =>
    by_cases h : kv.1 = k
    · simp [setKey, lookupKV, h]
    · simp [setKey, lookupKV, h, ih]

theorem annotateList_mem (cat : List Char) (xs : List Json) (qs : List Json)
    (h : annotateList cat xs = some qs) (q : Json) (hq : q ∈ qs) :
    ∃ kvs, q = Json.obj (setKey kvs "category".data (Json.str cat)) := by
  induction xs generalizing qs with
  | nil =>
    simp only [annotateList, Option.some.injEq] at h
    subst h
    cases hq
  | cons x rest ih =>
    cases x with
    | obj kvs =>
      simp only [annotateList, Option.map_eq_some'] at h
      obtain ⟨qs1, hqs1, rfl⟩ := h
      rcases hq with _ | hq'
      · exact ⟨kvs, rfl⟩
      · exact ih qs1 hqs1 (by assumption)
    | null => simp [annotateList] at h
    | bool b => simp [annotateList] at h
    | num l => simp [annotateList] at h
    | str s => simp [annotateList] at h
    | arr ys => simp [annotateList] at h

/-- C7: every element of a list returned by `generate_questions` is a dict
whose `category` entry equals the input category argument, regardless of
any category the model emitted (the stamp overwrites it). -/
theorem category_stamped (o : ChatRequest → CompletionOutcome) (cat : List Char)
    (n m : Int) (qs : List Json) (q : Json)
    (h : generate_questions o cat n m = Json.arr qs) (hq : q ∈ qs) :
    ∃ kvs, q = Json.obj kvs ∧ lookupKV kvs "category".data = some (Json.str cat) := by
  simp only [generate_questions] at h
  split at h
  · injection h with h1; subst h1; cases hq
  · injection h with h1; subst h1; cases hq
  · rename_i s
    split at h
    · injection h with h1; subst h1; cases hq
    · rename_i j hj
      split at h
      · injection h with h1; subst h1; cases hq
      · rename_i j1 hj1
        subst h
        cases j with
        | arr xs =>
          simp only [annotateVal, Option.map_eq_some'] at hj1
          obtain ⟨qs1, hqs1, hq1⟩ := hj1
          injection hq1 with hq1
          subst hq1
          obtain ⟨kvs, rfl⟩ := annotateList_mem cat xs _ hqs1 q hq
          exact ⟨_, rfl, lookupKV_setKey kvs _ _⟩
        | obj kvs =>
          cases kvs with
          | nil =>
            simp only [annotateVal, Option.some.injEq] at hj1
            exact Json.noConfusion hj1
          | cons kv rest => simp [annotateVal] at hj1
        | str s1 =>
          cases s1 with
          | nil =>
            simp only [annotateVal, Option.some.injEq] at hj1
            exact Json.noConfusion hj1
          | cons c cs => simp [annotateVal] at hj1
        | null => simp [annotateVal] at hj1
        | bool b => simp [annotateVal] at hj1
        | num l => simp [annotateVal] at hj1

/-- Witness for C7 at a concrete generation run. -/
theorem category_stamped_witness :
    generate_questions oracleTextOnly "Science".data 5 3 =
      Json.arr [Json.obj [("text".data, Json.str "t".data),
                          ("category".data, Json.str "Science".data)]] ∧
    ∃ kvs,
      Json.obj [("text".data, Json.str "t".data),
                ("category".data, Json.str "Science".data)] = Json.obj kvs ∧
      lookupKV kvs "category".data = some (Json.str "Science".data) :=
  ⟨rfl,
    category_stamped oracleTextOnly "Science".data 5 3
      [Json.obj [("text".data, Json.str "t".data),
                 ("category".data, Json.str "Science".data)]]
      (Json.obj [("text".data, Json.str "t".data),
                 ("category".data, Json.str "Science".data)])
      rfl (List.mem_singleton.mpr rfl)⟩

theorem reshapeAll_index (qs : List Json) (fs : List Json)
    (h : reshapeAll qs = Except.ok fs) :
    fs.length = qs.length ∧
      ∀ (i : Nat) (q : Json), qs[i]? = some q → ∃ f, reshape q = Except.ok f ∧ fs[i]? = some f := by
  induction qs generalizing fs with
  | nil =>
    simp only [reshapeAll, Except.ok.injEq] at h
    subst h
    refine ⟨rfl, ?_⟩
    intro i q hq
    simp at hq
  | cons q0 rest ih =>
    simp only [reshapeAll] at h
    split at h
    · rename_i d hd
      split at h
      · rename_i ds hds
        injection h with h
        subst h
        obtain ⟨hlen, hidx⟩ := ih ds hds
        refine ⟨by simp [hlen], ?_⟩
        intro i q hq
        cases i with
        | zero =>
          simp only [List.getElem?_cons_zero, Option.some.injEq] at hq
          subst hq
          exact ⟨d, hd, by simp⟩
        | succ i1 =>
          simp only [List.getElem?_cons_succ] at hq ⊢
          exact hidx i1 q hq
      · exact absurd h (by simp)
    · exact absurd h (by simp)

/-- C8: for a non-empty well-formed input, the body handed to the HTTP layer
is exactly the single-key envelope `\x7b"questions": [...]\x7d` whose array
holds the reshaped records in input order, each reshaped record being the
four-key extraction (`text`, `answer`, `category`, `filler_answers`) of the
corresponding input record, extra keys dropped. -/
theorem upload_payload_shape (net : Json → HttpOutcome) (qs fs : List Json)
    (hne : qs ≠ []) (hr : reshapeAll qs = Except.ok fs) :
    (upload_questions net (Json.arr qs)).2 =
      [Json.obj [("questions".data, Json.arr fs)]] ∧
    (∀ (i : Nat) (q : Json), qs[i]? = some q → ∃ f, reshape q = Except.ok f ∧ fs[i]? = some f) ∧
    (∀ kvs t a c fa, lookupKV kvs "text".data = some t →
        lookupKV kvs "answer".data = some a →
        lookupKV kvs "category".data = some c →
        lookupKV kvs "filler_answers".data = some fa →
      reshape (Json.obj kvs) = Except.ok (Json.obj
        [("text".data, t), ("answer".data, a),
         ("category".data, c), ("filler_answers".data, fa)])) := by
  refine ⟨?_, (reshapeAll_index qs fs hr).2, ?_⟩
  · have hfalsy : pyFalsy (Json.arr qs) = false := by
      simp [pyFalsy, List.isEmpty_iff, hne]
    simp only [upload_questions, hfalsy, Bool.false_eq_true, if_false, pyIter, hr]
    cases net (Json.obj [("questions".data, Json.arr fs)]) <;> rfl
  · intro kvs t a c fa h1 h2 h3 h4
    simp [reshape, h1, h2, h3, h4]

/-- Witness for C8 at the spec's example record (its reshape is itself). -/
theorem upload_payload_shape_witness :
    reshapeAll [sampleRecord] = Except.ok [sampleRecord] ∧
    (upload_questions netOk (Json.arr [sampleRecord])).2 =
      [Json.obj [("questions".data, Json.arr [sampleRecord])]] :=
  ⟨rfl, (upload_payload_shape netOk [sampleRecord] [sampleRecord] (by simp) rfl).1⟩

/-- C9: evaluation at the failing input.  When the completion capability
returns the text `\x7b\x7d` (the empty JSON object), the stamping loop
iterates zero times and `generate_questions` returns the empty dict — a
non-list value — although its own annotation declares
`List[Dict[str, Any]]`.  (The same happens for the empty JSON string.)
No exception escapes, but the "returns a list" half of the claim fails. -/
theorem generate_empty_object_returns_dict :
    generate_questions (fun _ => CompletionOutcome.content "\x7b\x7d".data)
        "Science".data 5 3 = Json.obj [] ∧
    (Json.obj []).isArr = false ∧
    generate_questions (fun _ => CompletionOutcome.content "\"\"".data)
        "Science".data 5 3 = Json.str [] ∧
    (Json.str []).isArr = false :=
  ⟨rfl, rfl, rfl, rfl⟩

theorem formatLoop_grows (rs : List Nat) (store : Store) :
    ∃ ext, (formatLoop store rs).2 = store ++ ext := by
  induction rs generalizing store with
  | nil => exact ⟨[], by simp [formatLoop]⟩
  | cons r rest ih =>
    simp only [formatLoop]
    cases hsh : reshapeRef store r with
    | error e => exact ⟨[], by simp⟩
    | ok d =>
      dsimp only
      obtain ⟨ext, hext⟩ := ih (store ++ [d])
      rcases hfl : formatLoop (store ++ [d]) rest with ⟨res, store1⟩
      rw [hfl] at hext
      simp only [List.append_assoc] at hext
      cases res with
      | ok refs => exact ⟨[d] ++ ext, hext⟩
      | error e => exact ⟨[d] ++ ext, hext⟩

/-- C10: `upload_questions` does not mutate its input: every record that was
on the heap before the call is unchanged after it (the reshape allocates
fresh dicts; its only reads are the four key lookups). -/
theorem upload_no_mutation (net : Json → HttpOutcome) (store : Store)
    (qrefs : List Nat) (i : Nat) (hi : i < store.length) :
    (uploadHeap net store qrefs).2[i]? = store[i]? := by
  suffices hpre : ∃ ext, (uploadHeap net store qrefs).2 = store ++ ext by
    obtain ⟨ext, hext⟩ := hpre
    rw [hext, List.getElem?_append_left hi]
  by_cases hq : qrefs.isEmpty
  · exact ⟨[], by simp [uploadHeap, hq]⟩
  · obtain ⟨ext, hext⟩ := formatLoop_grows qrefs store
    rcases hfl : formatLoop store qrefs with ⟨res, store1⟩
    rw [hfl] at hext
    cases res with
    | error e =>
      refine ⟨ext, ?_⟩
      simp only [uploadHeap, hq, Bool.false_eq_true, if_false, hfl]
      exact hext
    | ok refs =>
      cases hnet : net (Json.obj [("questions".data,
          Json.arr (refs.filterMap (fun r => (store1[r]?).map Json.obj)))]) with
      | resp status body =>
        refine ⟨ext, ?_⟩
        simp only [uploadHeap, hq, Bool.false_eq_true, if_false, hfl, hnet]
        exact hext
      | transportError =>
        refine ⟨ext, ?_⟩
        simp only [uploadHeap, hq, Bool.false_eq_true, if_false, hfl, hnet]
        exact hext

/-- Witness for C10 at the one-record heap. -/
theorem upload_no_mutation_witness :
    0 < sampleStore.length ∧
    (uploadHeap netOk sampleStore [0]).2[0]? = sampleStore[0]? :=
  ⟨by simp [sampleStore], upload_no_mutation netOk sampleStore [0] 0 (by simp [sampleStore])⟩
